import Mathlib

/-!
Verification development for the `woo` server (src/main.rs).

The development shallowly embeds the request-handling core of the program:
the data model decoded from the upstream places API, the bulk-insert
statement builder (src/main.rs lines 102-152), the `nearby_restaurants`
request handler (lines 88-161) and the `router` dispatch (lines 163-185).

Modelling conventions:
* Rust `String` is Lean `String`; per-character `str::replace` is expressed
  through `List.flatMap` on the underlying character list.
* The `f32` coordinate fields are abstracted as `Int` together with their
  `Display` rendering abstracted as `toString`.  No claim under study
  depends on floating-point value semantics; the coordinates are only
  carried through and printed.
* External effects (the environment variable lookup, the serde JSON
  parser for the inbound body, the outbound HTTP fetch of upstream bytes
  plus their JSON parse, and the database execution) are oracle fields of
  an `Env` record; the typed decoding of the upstream JSON value into the
  response structs (serde derive semantics: every declared field required,
  unknown fields ignored) is embedded concretely.
* The handler returns, besides its `Except` result, an `Effects` record
  listing the upstream URLs fetched and the SQL strings executed, so that
  "no upstream call is made" and "no database call is made" are statable.
-/

namespace Woo

/-- The single-quote character `'` (code point 39). -/
def squote : Char := Char.ofNat 39

/-- The backslash character `\` (code point 92). -/
def bslash : Char := Char.ofNat 92

/-- The one-character string holding a single quote. -/
def sq : String := String.singleton squote

/-! ## Data model (src/main.rs lines 45-86) -/

/-- Request body shape of POST /nearby_restaurants (struct NearbyRestaurantsRequest). -/
structure NearbyRestaurantsRequest where
  latitude : String
  longitude : String
deriving DecidableEq

/-- Latitude/longitude pair (struct LatLong); the JSON keys are renamed to
`lat` and `lng`.  The Rust `f32` fields are abstracted as `Int`. -/
structure LatLong where
  latitude : Int
  longitude : Int
deriving DecidableEq

/-- Viewport corners (struct Viewport). -/
structure Viewport where
  northeast : LatLong
  southwest : LatLong
deriving DecidableEq

/-- Geometry of a listing (struct PlacesLocation). -/
structure PlacesLocation where
  location : LatLong
  viewport : Viewport
deriving DecidableEq

/-- One upstream search result (struct PlacesListing). -/
structure PlacesListing where
  business_status : String
  geometry : PlacesLocation
  name : String
  place_id : String
  reference : String
  types : List String
  vicinity : String
deriving DecidableEq

/-- Upstream response shape (struct PlacesNearbySearchResponse). -/
structure PlacesNearbySearchResponse where
  next_page_token : String
  results : List PlacesListing
deriving DecidableEq

/-! ## Statement builder (src/main.rs lines 102-152) -/

/-- Rust `x.name.replace("'", "''")` (line 110): every single quote doubled. -/
def replaceSquoteDoubled (s : String) : String :=
  ⟨s.data.flatMap fun c => if c = squote then [squote, squote] else [c]⟩

/-- Rust `y.replace("'", "\\'")` (line 117): every single quote replaced by
backslash-quote. -/
def replaceSquoteBackslashed (s : String) : String :=
  ⟨s.data.flatMap fun c => if c = squote then [bslash, squote] else [c]⟩

/-- Rendering of the `types` field (lines 113-120):
`format!("'{{{}}}'", types.iter().map(|y| format!("\"{}\"", y.replace("'", "\\'"))).join(", "))`. -/
def typesValue (ts : List String) : String :=
  sq ++ "\x7b" ++
    String.intercalate ", " (ts.map fun y => "\"" ++ replaceSquoteBackslashed y ++ "\"") ++
    "\x7d" ++ sq

/-- One row-value tuple of the bulk insert (lines 107-128): the translation of
`format!("('{}', '{}', '{}', '{}', {}, '{}', {}, {}, {}, {}, {}, {})", ...)`
with the twelve arguments in source order.  The quote characters of the
format string are written through `sq`. -/
def rowTuple (x : PlacesListing) : String :=
  "(" ++ sq ++ x.business_status ++ sq ++ ", " ++
    sq ++ replaceSquoteDoubled x.name ++ sq ++ ", " ++
    sq ++ x.place_id ++ sq ++ ", " ++
    sq ++ x.reference ++ sq ++ ", " ++
    typesValue x.types ++ ", " ++
    sq ++ x.vicinity ++ sq ++ ", " ++
    toString x.geometry.location.latitude ++ ", " ++
    toString x.geometry.location.longitude ++ ", " ++
    toString x.geometry.viewport.northeast.latitude ++ ", " ++
    toString x.geometry.viewport.northeast.longitude ++ ", " ++
    toString x.geometry.viewport.southwest.latitude ++ ", " ++
    toString x.geometry.viewport.southwest.longitude ++ ")"

/-- The joined values string (lines 102-131): the enumerated map over
`results` ignores the index and the tuples are joined with `", "`. -/
def valuesString (results : List PlacesListing) : String :=
  String.intercalate ", " (results.map rowTuple)

/-- Text of the INSERT statement before the `{}` placeholder (lines 133-148),
whitespace reproduced from the source format string. -/
def insertHeader : String :=
  "\n            INSERT INTO places (" ++
  "\n               business_status," ++
  "\n               name," ++
  "\n               place_id," ++
  "\n               reference," ++
  "\n               types," ++
  "\n               vicinity," ++
  "\n               location_latitude," ++
  "\n               location_longitude," ++
  "\n               viewport_northeast_latitude," ++
  "\n               viewport_northeast_longitude," ++
  "\n               viewport_southwest_latitude," ++
  "\n               viewport_southwest_longitude " ++
  "\n            ) VALUES "

/-- Text of the INSERT statement after the `{}` placeholder (lines 148-150). -/
def insertFooter : String :=
  "\n            ON CONFLICT DO NOTHING;\n        "

/-- The complete statement string (lines 133-152):
`format!("... ) VALUES {} ON CONFLICT DO NOTHING; ...", values_string)`. -/
def queryString (results : List PlacesListing) : String :=
  insertHeader ++ valuesString results ++ insertFooter

/-! ## JSON values and serde-derived decoding -/

/-- JSON values.  Numbers are abstracted as `Int` in step with the `f32`
abstraction of the data model. -/
inductive Json where
  | null : Json
  | bool (b : Bool) : Json
  | num (n : Int) : Json
  | str (s : String) : Json
  | arr (elements : List Json) : Json
  | obj (fields : List (String × Json)) : Json

/-- First binding of a key in a JSON object. -/
def lookupField : List (String × Json) → String → Option Json
  | [], _ => none
  | (k, v) :: rest, key => if k = key then some v else lookupField rest key

/-- A JSON string value, or decode failure. -/
def asStr : Json → Option String
  | .str s => some s
  | _ => none

/-- A JSON number value, or decode failure. -/
def asNum : Json → Option Int
  | .num n => some n
  | _ => none

/-- serde decode of `LatLong` (fields renamed to `lat` and `lng`). -/
def decodeLatLong : Json → Option LatLong
  | .obj fields => do
      let lat ← lookupField fields "lat" >>= asNum
      let lng ← lookupField fields "lng" >>= asNum
      pure ⟨lat, lng⟩
  | _ => none

/-- serde decode of `Viewport`. -/
def decodeViewport : Json → Option Viewport
  | .obj fields => do
      let ne ← lookupField fields "northeast" >>= decodeLatLong
      let sw ← lookupField fields "southwest" >>= decodeLatLong
      pure ⟨ne, sw⟩
  | _ => none

/-- serde decode of `PlacesLocation`. -/
def decodePlacesLocation : Json → Option PlacesLocation
  | .obj fields => do
      let loc ← lookupField fields "location" >>= decodeLatLong
      let vp ← lookupField fields "viewport" >>= decodeViewport
      pure ⟨loc, vp⟩
  | _ => none

/-- serde decode of a `Vec<String>`: an array, every element a string. -/
def decodeStringList : Json → Option (List String)
  | .arr elements => elements.mapM asStr
  | _ => none

/-- serde decode of `PlacesListing`: every declared field is required. -/
def decodePlacesListing : Json → Option PlacesListing
  | .obj fields => do
      let bs ← lookupField fields "business_status" >>= asStr
      let geo ← lookupField fields "geometry" >>= decodePlacesLocation
      let nm ← lookupField fields "name" >>= asStr
      let pid ← lookupField fields "place_id" >>= asStr
      let rf ← lookupField fields "reference" >>= asStr
      let ts ← lookupField fields "types" >>= decodeStringList
      let vc ← lookupField fields "vicinity" >>= asStr
      pure ⟨bs, geo, nm, pid, rf, ts, vc⟩
  | _ => none

/-- serde decode of `PlacesNearbySearchResponse`: `next_page_token` is a
required string field and `results` a required array of listings. -/
def decodePlacesResponse : Json → Option PlacesNearbySearchResponse
  | .obj fields => do
      let tok ← lookupField fields "next_page_token" >>= asStr
      let rs ← lookupField fields "results" >>= fun j =>
        match j with
        | .arr elements => elements.mapM decodePlacesListing
        | _ => none
      pure ⟨tok, rs⟩
  | _ => none

/-- serde decode of `NearbyRestaurantsRequest` from the inbound body. -/
def decodeNearbyRequest : Json → Option NearbyRestaurantsRequest
  | .obj fields => do
      let lat ← lookupField fields "latitude" >>= asStr
      let lng ← lookupField fields "longitude" >>= asStr
      pure ⟨lat, lng⟩
  | _ => none

/-! ## serde serialization (serde_json::to_string, line 159) -/

/-- Hexadecimal digit for a value below 16 (upper-case, as serde_json emits). -/
def hexDigit (n : Nat) : Char :=
  if n < 10 then Char.ofNat (48 + n) else Char.ofNat (55 + n)

/-- serde_json escaping of one character inside a JSON string literal. -/
def jsonEscapeChar (c : Char) : List Char :=
  if c = Char.ofNat 34 then [bslash, Char.ofNat 34]
  else if c = bslash then [bslash, bslash]
  else if c = Char.ofNat 8 then [bslash, Char.ofNat 98]
  else if c = Char.ofNat 9 then [bslash, Char.ofNat 116]
  else if c = Char.ofNat 10 then [bslash, Char.ofNat 110]
  else if c = Char.ofNat 12 then [bslash, Char.ofNat 102]
  else if c = Char.ofNat 13 then [bslash, Char.ofNat 114]
  else if c.toNat < 32 then
    [bslash, Char.ofNat 117, Char.ofNat 48, Char.ofNat 48,
      hexDigit (c.toNat / 16), hexDigit (c.toNat % 16)]
  else [c]

/-- serde_json rendering of a string value, quotes included. -/
def encodeJsonString (s : String) : String :=
  "\"" ++ ⟨s.data.flatMap jsonEscapeChar⟩ ++ "\""

/-- Serialization of `LatLong` (declaration field order, renamed keys). -/
def serializeLatLong (l : LatLong) : String :=
  "\x7b\"lat\":" ++ toString l.latitude ++ ",\"lng\":" ++ toString l.longitude ++ "\x7d"

/-- Serialization of `Viewport`. -/
def serializeViewport (v : Viewport) : String :=
  "\x7b\"northeast\":" ++ serializeLatLong v.northeast ++
    ",\"southwest\":" ++ serializeLatLong v.southwest ++ "\x7d"

/-- Serialization of `PlacesLocation`. -/
def serializePlacesLocation (g : PlacesLocation) : String :=
  "\x7b\"location\":" ++ serializeLatLong g.location ++
    ",\"viewport\":" ++ serializeViewport g.viewport ++ "\x7d"

/-- Serialization of `PlacesListing` (declaration field order). -/
def serializePlacesListing (x : PlacesListing) : String :=
  "\x7b\"business_status\":" ++ encodeJsonString x.business_status ++
    ",\"geometry\":" ++ serializePlacesLocation x.geometry ++
    ",\"name\":" ++ encodeJsonString x.name ++
    ",\"place_id\":" ++ encodeJsonString x.place_id ++
    ",\"reference\":" ++ encodeJsonString x.reference ++
    ",\"types\":[" ++ String.intercalate "," (x.types.map encodeJsonString) ++ "]" ++
    ",\"vicinity\":" ++ encodeJsonString x.vicinity ++ "\x7d"

/-- Serialization of `PlacesNearbySearchResponse`: the body returned to the
caller on success. -/
def serializePlacesResponse (r : PlacesNearbySearchResponse) : String :=
  "\x7b\"next_page_token\":" ++ encodeJsonString r.next_page_token ++
    ",\"results\":[" ++ String.intercalate "," (r.results.map serializePlacesListing) ++
    "]\x7d"

/-! ## Request handler (src/main.rs lines 88-161) -/

/-- Failure points of the handler, in source order of the `?` operators. -/
inductive HandlerError where
  | configError : HandlerError
  | malformedRequest : HandlerError
  | upstreamRequestFailed : HandlerError
  | upstreamDecodeFailed : HandlerError
  | persistenceFailed : HandlerError
deriving DecidableEq

/-- An HTTP response: status code, optional content-type header, body. -/
structure HttpResponse where
  status : Nat
  contentType : Option String
  body : String
deriving DecidableEq

/-- Observable calls a handler run makes: upstream URLs fetched and SQL
strings handed to the pool. -/
structure Effects where
  upstreamCalls : List String
  dbCalls : List String
deriving DecidableEq

/-- External oracles of one request: the GOOGLE_PLACES_API_KEY variable,
the serde JSON parser applied to the inbound body, the network fetch of the
upstream URL combined with the JSON parse of the received bytes, the
database execution outcome, and the static index page bytes. -/
structure Env where
  apiKey : Option String
  parseJson : String → Option Json
  upstream : String → Option Json
  dbExec : String → Bool
  index : String

/-- Whether an `Except` holds an error (the `Err` arm of the logging match). -/
def exceptIsErr : Except HandlerError HttpResponse → Bool
  | .error _ => true
  | .ok _ => false

/-- Whether an `Except` holds a success value. -/
def exceptIsOk : Except HandlerError HttpResponse → Bool
  | .error _ => false
  | .ok _ => true

/-- The upstream URL built at line 97 of the source. -/
def queryUrl (key lat lng : String) : String :=
  "https://maps.googleapis.com/maps/api/place/nearbysearch/json?key=" ++ key ++
    "&location=" ++ lat ++ "," ++ lng ++ "&rankby=distance&type=restaurant"

/-- The `nearby_restaurants` handler (lines 88-161): read the API key,
decode the body, fetch and decode the upstream response, build and execute
the bulk insert, then answer 200 with the re-serialized upstream payload. -/
def nearby_restaurants (env : Env) (body : String) :
    Except HandlerError HttpResponse × Effects :=
  match env.apiKey with
  | none => (Except.error HandlerError.configError, ⟨[], []⟩)
  | some key =>
    match env.parseJson body >>= decodeNearbyRequest with
    | none => (Except.error HandlerError.malformedRequest, ⟨[], []⟩)
    | some req =>
      let url := queryUrl key req.latitude req.longitude
      match env.upstream url with
      | none => (Except.error HandlerError.upstreamRequestFailed, ⟨[url], []⟩)
      | some j =>
        match decodePlacesResponse j with
        | none => (Except.error HandlerError.upstreamDecodeFailed, ⟨[url], []⟩)
        | some placesResponse =>
          let q := queryString placesResponse.results
          if env.dbExec q then
            (Except.ok ⟨200, some "application/json", serializePlacesResponse placesResponse⟩,
              ⟨[url], [q]⟩)
          else
            (Except.error HandlerError.persistenceFailed, ⟨[url], [q]⟩)

/-! ## Router (src/main.rs lines 163-185) -/

/-- HTTP methods distinguished by the dispatch. -/
inductive HttpMethod where
  | GET : HttpMethod
  | POST : HttpMethod
  | otherMethod : HttpMethod
deriving DecidableEq

/-- Body of the 404 branch (line 18). -/
def NOTFOUND : String := "Not Found"

/-- Fixed server-error body declared at line 17 of the source.  No code in
the repository ever attaches it to a response. -/
def INTERNAL_SERVER_ERROR : String := "Internal Server Error"

/-- Result of one routed request: the handler outcome, the effects of the
run, and whether the error branch of the logging match at lines 180-183
fired. -/
structure RouterResult where
  response : Except HandlerError HttpResponse
  effects : Effects
  logged : Bool

/-- The dispatch match of `router` (lines 168-178): GET / and GET
/index.html answer the static index with status 200, POST
/nearby_restaurants runs the handler, everything else answers 404 with the
fixed Not Found body.  The Rust or-pattern of the first arm is rendered as
a disjunctive condition. -/
def routeResponse (env : Env) (method : HttpMethod) (path : String) (body : String) :
    Except HandlerError HttpResponse × Effects :=
  if method = HttpMethod.GET ∧ (path = "/" ∨ path = "/index.html") then
    (Except.ok ⟨200, none, env.index⟩, ⟨[], []⟩)
  else if method = HttpMethod.POST ∧ path = "/nearby_restaurants" then
    nearby_restaurants env body
  else
    (Except.ok ⟨404, none, NOTFOUND⟩, ⟨[], []⟩)

/-- The `router` function (lines 163-185): the dispatched outcome together
with the logging match at lines 180-183, which prints an error outcome to
stderr (`logged`) and returns the outcome unchanged. -/
def router (env : Env) (method : HttpMethod) (path : String) (body : String) :
    RouterResult :=
  ⟨(routeResponse env method path body).1,
    (routeResponse env method path body).2,
    exceptIsErr (routeResponse env method path body).1⟩

/-! ## Specification-side definitions and concrete fixtures -/

/-- Scan deciding that every single-quote character of a fragment is
immediately preceded by a backslash, the escape discipline the inner
array-element context applies; `prev` is the character before the current
position. -/
def sqEscapedFrom (prev : Option Char) : List Char → Bool
  | [] => true
  | c :: rest => (if c = squote then prev == some bslash else true) && sqEscapedFrom (some c) rest

/-- Modelled from the spec: the body of a single-quoted literal under "the
target statement's quoting rules" — a doubled quote stands for one literal
quote character, a single quote closes the literal.  Returns the decoded
contents and the input remaining after the closing quote. -/
def parseSqlBody : List Char → Option (List Char × List Char)
  | [] => none
  | c :: rest =>
    if c = squote then
      match rest with
      | d :: r2 =>
        if d = squote then (parseSqlBody r2).map fun p => (squote :: p.1, p.2)
        else some ([], rest)
      | [] => some ([], [])
    else (parseSqlBody rest).map fun p => (c :: p.1, p.2)

/-- Modelled from the spec: parse one single-quoted string literal from the
front of a fragment, returning its contents and the remaining input. -/
def parseSqlStringLiteral (s : String) : Option (String × String) :=
  match s.data with
  | c :: rest =>
    if c = squote then (parseSqlBody rest).map fun p => (⟨p.1⟩, ⟨p.2⟩) else none
  | [] => none

/-- The fragment the builder emits for the `name` column: the escaped name
wrapped in single quotes. -/
def nameFragment (x : PlacesListing) : String := sq ++ replaceSquoteDoubled x.name ++ sq

/-- The string `O'Brien's`. -/
def obriens : String := ⟨['O', squote, 'B', 'r', 'i', 'e', 'n', squote, 's']⟩

/-- The string `St. John's`. -/
def stJohns : String := ⟨['S', 't', '.', ' ', 'J', 'o', 'h', 'n', squote, 's']⟩

/-- A listing whose name and vicinity contain single quotes. -/
def quoteListing : PlacesListing :=
  ⟨"OPERATIONAL", ⟨⟨1, 2⟩, ⟨⟨3, 4⟩, ⟨5, 6⟩⟩⟩, obriens, "pid", "ref", ["restaurant"], stJohns⟩

/-- A well-formed inbound request body, already JSON-parsed. -/
def reqBodyJson : Json := Json.obj [("latitude", Json.str "1"), ("longitude", Json.str "2")]

/-- Environment whose upstream answers with zero listings and whose
database accepts every statement. -/
def envEmptyResults : Env :=
  ⟨some "k", fun _ => some reqBodyJson,
    fun _ => some (Json.obj [("next_page_token", Json.str ""), ("results", Json.arr [])]),
    fun _ => true, "INDEX"⟩

/-- A plain listing for the success scenario. -/
def listing3 : PlacesListing :=
  ⟨"OPERATIONAL", ⟨⟨1, 2⟩, ⟨⟨3, 4⟩, ⟨5, 6⟩⟩⟩, "Joes Pizza", "pid", "ref", ["restaurant"], "NYC"⟩

/-- The JSON value of `listing3` as the upstream serves it. -/
def listing3Json : Json :=
  Json.obj
    [("business_status", Json.str "OPERATIONAL"),
     ("geometry", Json.obj
       [("location", Json.obj [("lat", Json.num 1), ("lng", Json.num 2)]),
        ("viewport", Json.obj
          [("northeast", Json.obj [("lat", Json.num 3), ("lng", Json.num 4)]),
           ("southwest", Json.obj [("lat", Json.num 5), ("lng", Json.num 6)])])]),
     ("name", Json.str "Joes Pizza"),
     ("place_id", Json.str "pid"),
     ("reference", Json.str "ref"),
     ("types", Json.arr [Json.str "restaurant"]),
     ("vicinity", Json.str "NYC")]

/-- Environment for a fully successful run returning one listing. -/
def env3 : Env :=
  ⟨some "k", fun _ => some reqBodyJson,
    fun _ => some (Json.obj [("next_page_token", Json.str "tok"),
      ("results", Json.arr [listing3Json])]),
    fun _ => true, "INDEX"⟩

/-- The decoded upstream payload of the successful run. -/
def pr3 : PlacesNearbySearchResponse := ⟨"tok", [listing3]⟩

/-- The response of the successful run. -/
def resp3 : HttpResponse := ⟨200, some "application/json", serializePlacesResponse pr3⟩

/-- Environment with no GOOGLE_PLACES_API_KEY configured. -/
def envNoKey : Env := ⟨none, fun _ => none, fun _ => none, fun _ => false, "INDEX"⟩

/-- Environment with a key configured but an inbound body the JSON parser
rejects. -/
def envBadBody : Env := ⟨some "k", fun _ => none, fun _ => none, fun _ => false, "INDEX"⟩

/-- Environment whose upstream answers a well-formed `results` array but no
`next_page_token` field. -/
def envNoToken : Env :=
  ⟨some "k", fun _ => some reqBodyJson,
    fun _ => some (Json.obj [("results", Json.arr [])]),
    fun _ => false, "INDEX"⟩

/-! ## Shared lemmas -/

/-- Every fragment the inner escaping produces passes the escaped-quote
scan, whatever character precedes it. -/
theorem sqEscapedFrom_escInner (l : List Char) : ∀ prev : Option Char,
    sqEscapedFrom prev (l.flatMap fun c => if c = squote then [bslash, squote] else [c]) = true := by
  induction l with
  | nil => intro prev; rfl
  | cons c rest ih =>
    intro prev
    by_cases hc : c = squote
    · subst hc
      simp only [List.flatMap_cons, if_pos rfl, List.cons_append, List.append_eq]
      simp [sqEscapedFrom, ih]
      exact Or.inl (by decide)
    · simp only [List.flatMap_cons, if_neg hc, List.cons_append, List.append_eq,
        List.singleton_append]
      simp [sqEscapedFrom, hc, ih]

/-- Reading the quote-doubled image of a character list up to a closing
quote recovers the list exactly and consumes the whole input. -/
theorem parseSqlBody_escaped (l : List Char) :
    parseSqlBody ((l.flatMap fun c => if c = squote then [squote, squote] else [c]) ++ [squote]) =
      some (l, []) := by
  induction l with
  | nil => rfl
  | cons c rest ih =>
    by_cases hc : c = squote
    · subst hc
      simp only [List.flatMap_cons, if_pos rfl, List.cons_append, List.append_eq]
      simp [parseSqlBody, ih]
    · simp only [List.flatMap_cons, if_neg hc, List.cons_append, List.append_eq,
        List.singleton_append]
      rw [parseSqlBody.eq_def]
      simp only [List.nil_append, if_neg hc, ih]
      rfl

/-! ## Claims -/

/-- C5: for every upstream response the built values string joins exactly
one row-value tuple per listing with `", "`, and each tuple lists the
twelve fields in the fixed order business_status, name, place_id,
reference, types, vicinity, location.latitude, location.longitude,
viewport.northeast.latitude, viewport.northeast.longitude,
viewport.southwest.latitude, viewport.southwest.longitude. -/
theorem c5_tuple_count_and_field_order (results : List PlacesListing) :
    valuesString results = String.intercalate ", " (results.map rowTuple) ∧
    (results.map rowTuple).length = results.length ∧
    ∀ x : PlacesListing,
      rowTuple x = "(" ++ String.intercalate ", "
        [sq ++ x.business_status ++ sq,
         sq ++ replaceSquoteDoubled x.name ++ sq,
         sq ++ x.place_id ++ sq,
         sq ++ x.reference ++ sq,
         typesValue x.types,
         sq ++ x.vicinity ++ sq,
         toString x.geometry.location.latitude,
         toString x.geometry.location.longitude,
         toString x.geometry.viewport.northeast.latitude,
         toString x.geometry.viewport.northeast.longitude,
         toString x.geometry.viewport.southwest.latitude,
         toString x.geometry.viewport.southwest.longitude] ++ ")" := by
  refine ⟨rfl, by simp, fun x => ?_⟩
  simp [rowTuple, String.intercalate, String.intercalate.go, String.append_assoc]

/-- C6: the types field is rendered as an array literal
`{"type1", "type2", ...}` wrapped in outer single quotes; inside every
element each single-quote character is escaped with a backslash
(`sqEscapedFrom`), an escaping context different from the outer
quote-doubling context, as the two escapes disagree already on the
one-quote string. -/
theorem c6_types_array_literal (ts : List String) :
    typesValue ts =
      sq ++ "\x7b" ++
        String.intercalate ", " (ts.map fun y => "\"" ++ replaceSquoteBackslashed y ++ "\"") ++
        "\x7d" ++ sq ∧
    (∀ y : String, sqEscapedFrom none (replaceSquoteBackslashed y).data = true) ∧
    replaceSquoteBackslashed sq = ⟨[bslash, squote]⟩ ∧
    replaceSquoteDoubled sq = ⟨[squote, squote]⟩ ∧
    replaceSquoteBackslashed sq ≠ replaceSquoteDoubled sq := by
  exact ⟨rfl, fun y => sqEscapedFrom_escInner y.data none, by decide, by decide, by decide⟩

/-- C7: for a listing whose name contains a single quote, the name fragment
of the built tuple parses back, under the target statement's quoting rules,
to exactly the original name with nothing left over, and the fragment is
the name portion of the row tuple. -/
theorem c7_name_roundtrip (x : PlacesListing) (h : squote ∈ x.name.data) :
    parseSqlStringLiteral (nameFragment x) = some (x.name, "") ∧
    rowTuple x = ("(" ++ sq ++ x.business_status ++ sq ++ ", ") ++ nameFragment x ++
      (", " ++ sq ++ x.place_id ++ sq ++ ", " ++ sq ++ x.reference ++ sq ++ ", " ++
        typesValue x.types ++ ", " ++ sq ++ x.vicinity ++ sq ++ ", " ++
        toString x.geometry.location.latitude ++ ", " ++
        toString x.geometry.location.longitude ++ ", " ++
        toString x.geometry.viewport.northeast.latitude ++ ", " ++
        toString x.geometry.viewport.northeast.longitude ++ ", " ++
        toString x.geometry.viewport.southwest.latitude ++ ", " ++
        toString x.geometry.viewport.southwest.longitude ++ ")") := by
  constructor
  · have hd : (nameFragment x).data =
        squote :: ((x.name.data.flatMap fun c => if c = squote then [squote, squote] else [c]) ++
          [squote]) := by
      simp [nameFragment, sq, String.data_append, replaceSquoteDoubled]
    simp [parseSqlStringLiteral, hd, parseSqlBody_escaped]
  · simp [rowTuple, nameFragment, String.append_assoc]

/-- C7 witness: the listing named `O'Brien's` satisfies the round-trip. -/
theorem c7_name_roundtrip_witness :
    squote ∈ quoteListing.name.data ∧
    (parseSqlStringLiteral (nameFragment quoteListing) = some (quoteListing.name, "") ∧
      rowTuple quoteListing = ("(" ++ sq ++ quoteListing.business_status ++ sq ++ ", ") ++
        nameFragment quoteListing ++
        (", " ++ sq ++ quoteListing.place_id ++ sq ++ ", " ++ sq ++ quoteListing.reference ++
          sq ++ ", " ++ typesValue quoteListing.types ++ ", " ++ sq ++ quoteListing.vicinity ++
          sq ++ ", " ++ toString quoteListing.geometry.location.latitude ++ ", " ++
          toString quoteListing.geometry.location.longitude ++ ", " ++
          toString quoteListing.geometry.viewport.northeast.latitude ++ ", " ++
          toString quoteListing.geometry.viewport.northeast.longitude ++ ", " ++
          toString quoteListing.geometry.viewport.southwest.latitude ++ ", " ++
          toString quoteListing.geometry.viewport.southwest.longitude ++ ")")) :=
  ⟨by decide, c7_name_roundtrip quoteListing (by decide)⟩

set_option maxRecDepth 16000 in
/-- C1: evaluation of the builder at a listing whose vicinity contains a
single quote.  The name's quote is doubled, but the vicinity (like
business_status, place_id and reference) is interpolated raw: its interior
quote stays single, and reading the vicinity fragment back under the
statement's quoting rules stops at that quote, yielding the truncated
string `St. John` with `s'` left over instead of the original value. -/
theorem c1_unescaped_fields :
    rowTuple quoteListing =
      "(" ++ sq ++ "OPERATIONAL" ++ sq ++ ", " ++
        sq ++ "O" ++ sq ++ sq ++ "Brien" ++ sq ++ sq ++ "s" ++ sq ++ ", " ++
        sq ++ "pid" ++ sq ++ ", " ++ sq ++ "ref" ++ sq ++ ", " ++
        sq ++ "\x7b\"restaurant\"\x7d" ++ sq ++ ", " ++
        sq ++ "St. John" ++ sq ++ "s" ++ sq ++ ", 1, 2, 3, 4, 5, 6)" ∧
    parseSqlStringLiteral (sq ++ quoteListing.vicinity ++ sq) =
      some ("St. John", ⟨['s', squote]⟩) ∧
    "St. John" ≠ quoteListing.vicinity := by
  refine ⟨by decide, by decide, by decide⟩

set_option maxRecDepth 16000 in
/-- C2: evaluation of the handler at an upstream response with zero
listings.  The values string is empty, yet the handler still hands the
database a statement whose VALUES clause has zero tuples: the executed
string is the header joined directly to the footer, and the list of
database calls is not empty. -/
theorem c2_zero_tuple_statement_executed :
    valuesString [] = "" ∧
    queryString [] = insertHeader ++ insertFooter ∧
    (nearby_restaurants envEmptyResults "body").2.dbCalls = [insertHeader ++ insertFooter] ∧
    (nearby_restaurants envEmptyResults "body").2.dbCalls ≠ [] := by
  refine ⟨rfl, by simp [queryString, valuesString, String.intercalate], by rfl, by decide⟩

/-- C3: whenever the handler returns successfully, the response has status
200, content-type application/json, and a body that is exactly the
serialization of the upstream payload as decoded — untouched by the
persistence step. -/
theorem c3_success_response (env : Env) (body : String) (resp : HttpResponse) (eff : Effects)
    (h : nearby_restaurants env body = (Except.ok resp, eff)) :
    resp.status = 200 ∧ resp.contentType = some "application/json" ∧
    ∃ key req j pr,
      env.apiKey = some key ∧
      env.parseJson body >>= decodeNearbyRequest = some req ∧
      env.upstream (queryUrl key req.latitude req.longitude) = some j ∧
      decodePlacesResponse j = some pr ∧
      resp.body = serializePlacesResponse pr := by
  unfold nearby_restaurants at h
  cases hk : env.apiKey with
  | none => simp only [hk] at h; simp at h
  | some key =>
    simp only [hk] at h
    cases hd : env.parseJson body >>= decodeNearbyRequest with
    | none => simp only [hd] at h; simp at h
    | some req =>
      simp only [hd] at h
      cases hu : env.upstream (queryUrl key req.latitude req.longitude) with
      | none => simp only [hu] at h; simp at h
      | some j =>
        simp only [hu] at h
        cases hp : decodePlacesResponse j with
        | none => simp only [hp] at h; simp at h
        | some pr =>
          simp only [hp] at h
          by_cases hdb : env.dbExec (queryString pr.results)
          · rw [if_pos hdb] at h
            simp only [Prod.mk.injEq, Except.ok.injEq] at h
            obtain ⟨h1, h2⟩ := h
            subst h1
            exact ⟨rfl, rfl, key, req, j, pr, rfl, rfl, hu, hp, rfl⟩
          · rw [if_neg hdb] at h; simp at h

set_option maxRecDepth 32000 in
/-- C3 witness: a concrete fully successful run with one listing. -/
theorem c3_success_response_witness :
    nearby_restaurants env3 "body" =
      (Except.ok resp3, ⟨[queryUrl "k" "1" "2"], [queryString [listing3]]⟩) ∧
    (resp3.status = 200 ∧ resp3.contentType = some "application/json" ∧
      ∃ key req j pr,
        env3.apiKey = some key ∧
        env3.parseJson "body" >>= decodeNearbyRequest = some req ∧
        env3.upstream (queryUrl key req.latitude req.longitude) = some j ∧
        decodePlacesResponse j = some pr ∧
        resp3.body = serializePlacesResponse pr) :=
  ⟨by rfl, c3_success_response env3 "body" resp3 ⟨[queryUrl "k" "1" "2"], [queryString [listing3]]⟩ (by rfl)⟩

/-- C4 counterexample: at a request whose handler aborts (the API key is
missing), the router produces no response at all — in particular no status
500 response with the fixed body — although the failure is logged. -/
theorem c4_counterexample :
    exceptIsErr (nearby_restaurants envNoKey "x").1 = true ∧
    exceptIsOk (router envNoKey HttpMethod.POST "/nearby_restaurants" "x").response = false ∧
    (router envNoKey HttpMethod.POST "/nearby_restaurants" "x").logged = true :=
  ⟨rfl, rfl, rfl⟩

/-- C4 (amended): when the handler aborts with an error, the router logs
the failure and propagates the error unchanged instead of building a 500
response; the caller receives no internal error detail from repository
code. -/
theorem c4_error_logged_and_propagated (env : Env) (body : String) (e : HandlerError)
    (eff : Effects) (h : nearby_restaurants env body = (Except.error e, eff)) :
    router env HttpMethod.POST "/nearby_restaurants" body = ⟨Except.error e, eff, true⟩ := by
  unfold router routeResponse
  rw [if_neg (by decide), if_pos (by decide), h]
  rfl

/-- C4 witness: the amended behavior at the concrete key-less environment. -/
theorem c4_error_logged_and_propagated_witness :
    nearby_restaurants envNoKey "x" = (Except.error HandlerError.configError, ⟨[], []⟩) ∧
    router envNoKey HttpMethod.POST "/nearby_restaurants" "x" =
      ⟨Except.error HandlerError.configError, ⟨[], []⟩, true⟩ :=
  ⟨rfl, c4_error_logged_and_propagated envNoKey "x" HandlerError.configError ⟨[], []⟩ rfl⟩

/-- C8: when the inbound body does not decode to a NearbySearchRequest, the
handler makes no upstream call and the request fails. -/
theorem c8_malformed_body_no_upstream_call (env : Env) (body : String)
    (h : env.parseJson body >>= decodeNearbyRequest = none) :
    (nearby_restaurants env body).2.upstreamCalls = [] ∧
    exceptIsOk (nearby_restaurants env body).1 = false := by
  unfold nearby_restaurants
  cases hk : env.apiKey with
  | none => exact ⟨rfl, rfl⟩
  | some key => rw [h]; exact ⟨rfl, rfl⟩

/-- C8 witness: the body `not json` under an environment whose JSON parser
rejects everything. -/
theorem c8_malformed_body_no_upstream_call_witness :
    (envBadBody.parseJson "not json" >>= decodeNearbyRequest = none) ∧
    ((nearby_restaurants envBadBody "not json").2.upstreamCalls = [] ∧
      exceptIsOk (nearby_restaurants envBadBody "not json").1 = false) :=
  ⟨rfl, c8_malformed_body_no_upstream_call envBadBody "not json" rfl⟩

/-- C9: the router is a pure dispatch on method and path: GET / and GET
/index.html answer 200 with the index bytes, POST /nearby_restaurants runs
the handler and returns its outcome, and every other pair answers 404 with
the fixed Not Found body. -/
theorem c9_router_dispatch (env : Env) (body : String) :
    router env HttpMethod.GET "/" body =
      ⟨Except.ok ⟨200, none, env.index⟩, ⟨[], []⟩, false⟩ ∧
    router env HttpMethod.GET "/index.html" body =
      ⟨Except.ok ⟨200, none, env.index⟩, ⟨[], []⟩, false⟩ ∧
    router env HttpMethod.POST "/nearby_restaurants" body =
      ⟨(nearby_restaurants env body).1, (nearby_restaurants env body).2,
        exceptIsErr (nearby_restaurants env body).1⟩ ∧
    ∀ (method : HttpMethod) (path : String),
      ¬(method = HttpMethod.GET ∧ (path = "/" ∨ path = "/index.html")) →
      ¬(method = HttpMethod.POST ∧ path = "/nearby_restaurants") →
      router env method path body = ⟨Except.ok ⟨404, none, NOTFOUND⟩, ⟨[], []⟩, false⟩ := by
  refine ⟨rfl, rfl, ?_, ?_⟩
  · unfold router routeResponse
    rw [if_neg (by decide), if_pos (by decide)]
  · intro method path h1 h2
    unfold router routeResponse
    rw [if_neg h1, if_neg h2]
    rfl

/-- C9 witness: GET /nope answers 404 Not Found. -/
theorem c9_router_dispatch_witness :
    router envNoKey HttpMethod.GET "/nope" "" =
      ⟨Except.ok ⟨404, none, NOTFOUND⟩, ⟨[], []⟩, false⟩ :=
  (c9_router_dispatch envNoKey "").2.2.2 HttpMethod.GET "/nope" (by decide) (by decide)

/-- C10: the derived decoding of the upstream body requires
`next_page_token` to be present and a string: if it is absent or mistyped
the decode fails — even when `results` is well-formed — and the handler
aborts with a decode error instead of answering 200. -/
theorem c10_next_page_token_required (env : Env) (body key : String)
    (req : NearbyRestaurantsRequest) (fields : List (String × Json))
    (hk : env.apiKey = some key)
    (hr : env.parseJson body >>= decodeNearbyRequest = some req)
    (hu : env.upstream (queryUrl key req.latitude req.longitude) = some (Json.obj fields))
    (hm : ∀ v, lookupField fields "next_page_token" = some v → asStr v = none) :
    decodePlacesResponse (Json.obj fields) = none ∧
    nearby_restaurants env body =
      (Except.error HandlerError.upstreamDecodeFailed,
        ⟨[queryUrl key req.latitude req.longitude], []⟩) := by
  have hdec : decodePlacesResponse (Json.obj fields) = none := by
    unfold decodePlacesResponse
    cases hl : lookupField fields "next_page_token" with
    | none => simp [hl]
    | some v => simp [hl, hm v hl]
  refine ⟨hdec, ?_⟩
  unfold nearby_restaurants
  simp only [hk, hr, hu, hdec]

/-- C10 witness: an upstream body holding only a well-formed empty
`results` array is rejected and the handler fails with the decode error. -/
theorem c10_next_page_token_required_witness :
    decodePlacesResponse (Json.obj [("results", Json.arr [])]) = none ∧
    nearby_restaurants envNoToken "body" =
      (Except.error HandlerError.upstreamDecodeFailed, ⟨[queryUrl "k" "1" "2"], []⟩) :=
  c10_next_page_token_required envNoToken "body" "k" ⟨"1", "2"⟩ [("results", Json.arr [])]
    rfl rfl rfl (fun v h => Option.noConfusion h)

end Woo
